import Mathlib

/-!
Verification development for the nickname-relay bot (src/bot.py).

The Python program is a thin orchestration layer over a chat SDK and a
hosted database.  We shallowly embed the store-facing and handler logic:

* The `users` table becomes a `List UserRecord`; each `DatabaseManager`
  operation becomes a pure function from the store (plus explicit fault
  flags standing for "this backend call raises") to its result.
* `datetime.now().isoformat()` becomes an abstract `Nat` timestamp; each
  syntactic call site of `now()` gets its own timestamp parameter, since
  the wall clock may advance between two calls.
* Handlers that send/delete messages become functions returning the trace
  of attempted platform actions plus a flag recording whether an uncaught
  exception escaped the handler.
-/

/-- One row of the `users` table (section "БАЗА ДАННЫХ" of bot.py).
Timestamps are abstract clock readings (`Nat`). -/
structure UserRecord where
  telegram_id : Int
  telegram_username : Option String
  telegram_name : String
  game_nick : String
  created_at : Nat
  updated_at : Nat
  deriving DecidableEq, Repr

/-- `DatabaseManager.get_user_nick`: select `game_nick` where
`telegram_id` matches; return the first row's nick if any, `none` if no
row; on a backend exception (`fault`) log and return `none`. -/
def get_user_nick (store : List UserRecord) (telegram_id : Int) (fault : Bool) :
    Option String :=
  if fault then none
  else
    match store.filter (fun r => r.telegram_id == telegram_id) with
    | [] => none
    | r :: _ => some r.game_nick

/-- The `user_data` payload of `DatabaseManager.save_user_nick` as applied
by the update branch: it carries `telegram_id`, `telegram_username`,
`telegram_name`, `game_nick` and `updated_at` (the first `now()` reading),
and no `created_at` key, so `created_at` is left as is. -/
def updateFields (telegram_id : Int) (username : Option String)
    (name game_nick : String) (t_upd : Nat) (r : UserRecord) : UserRecord :=
  { r with telegram_id := telegram_id, telegram_username := username,
           telegram_name := name, game_nick := game_nick, updated_at := t_upd }

/-- `DatabaseManager.save_user_nick`.  `t_upd` is the clock reading of the
first `datetime.now()` call (stored into `updated_at` before the
existence check resolves), `t_created` the reading of the second
`datetime.now()` call (stored into `created_at` on the insert branch
only, line 85 of bot.py).  `selectFault`, `updateFault`, `insertFault`
model the three backend round trips raising; any raise is caught and
yields `false` with the store unchanged. -/
def save_user_nick (store : List UserRecord) (telegram_id : Int)
    (username : Option String) (name game_nick : String)
    (t_upd t_created : Nat) (selectFault updateFault insertFault : Bool) :
    List UserRecord × Bool :=
  if selectFault then (store, false)
  else if 0 < (store.filter (fun r => r.telegram_id == telegram_id)).length then
    if updateFault then (store, false)
    else
      (store.map (fun r =>
        if r.telegram_id == telegram_id then
          updateFields telegram_id username name game_nick t_upd r
        else r), true)
  else
    if insertFault then (store, false)
    else
      (store ++ [{ telegram_id := telegram_id, telegram_username := username,
                   telegram_name := name, game_nick := game_nick,
                   created_at := t_created, updated_at := t_upd }], true)

/-- Projection returned by the recent-users query of `get_stats`
(`select('telegram_name, game_nick, created_at')`). -/
structure RecentRow where
  telegram_name : String
  game_nick : String
  created_at : Nat
  deriving DecidableEq, Repr

/-- Result shape of `DatabaseManager.get_stats`. -/
structure Stats where
  total : Nat
  recent : List RecentRow
  deriving DecidableEq, Repr

/-- Insertion step for ordering rows by `created_at` descending
(`order('created_at', desc=True)`). -/
def insertByCreatedDesc (r : UserRecord) : List UserRecord → List UserRecord
  | [] => [r]
  | x :: xs =>
    if x.created_at ≤ r.created_at then r :: x :: xs
    else x :: insertByCreatedDesc r xs

/-- Rows ordered by `created_at` descending. -/
def sortByCreatedDesc : List UserRecord → List UserRecord
  | [] => []
  | x :: xs => insertByCreatedDesc x (sortByCreatedDesc xs)

/-- `DatabaseManager.get_stats`: an exact count query, then the 5 most
recently created rows.  Either backend call raising (`countFault`,
`recentFault`) is caught and yields `total = 0`, `recent = []`. -/
def get_stats (store : List UserRecord) (countFault recentFault : Bool) : Stats :=
  if countFault || recentFault then { total := 0, recent := [] }
  else
    { total := store.length,
      recent := ((sortByCreatedDesc store).take 5).map (fun r =>
        { telegram_name := r.telegram_name, game_nick := r.game_nick,
          created_at := r.created_at }) }

/-- `headMatches needle hay`: `needle` is an initial segment of `hay`. -/
def headMatches : List Char → List Char → Bool
  | [], _ => true
  | _ :: _, [] => false
  | c :: cs, h :: hs => c == h && headMatches cs hs

/-- Python `str.strip()`: drop whitespace from both ends (character-list
formulation, so that proofs can evaluate it). -/
def pyStrip (s : String) : String :=
  ⟨(((s.toList.dropWhile Char.isWhitespace).reverse).dropWhile
      Char.isWhitespace).reverse⟩

/-- Python `char in s` (character-list formulation). -/
def strContains (s : String) (c : Char) : Bool :=
  s.toList.contains c

/-- Python `s.startswith(pre)` (character-list formulation). -/
def strStartsWith (s pre : String) : Bool :=
  headMatches pre.toList s.toList

/-- ASCII case folding, `s.lower()` (character-list formulation). -/
def lowerStr (s : String) : String :=
  ⟨s.toList.map Char.toLower⟩

/-- `hasSubList needle hay`: `needle` occurs contiguously inside `hay`. -/
def hasSubList (needle : List Char) : List Char → Bool
  | [] => headMatches needle []
  | h :: hs => headMatches needle (h :: hs) || hasSubList needle hs

/-- Substring test over the characters of two strings. -/
def containsSub (hay needle : String) : Bool :=
  hasSubList needle.toList hay.toList

/-- Projection returned by `search_nick`
(`select('telegram_name, game_nick')`). -/
structure SearchRow where
  telegram_name : String
  game_nick : String
  deriving DecidableEq, Repr

/-- The `ilike '%text%'` filter of `search_nick`: case-insensitive
substring match against `game_nick` OR `telegram_name` (case folding
modelled by `lowerStr`). -/
def matchesSearch (search_text : String) (r : UserRecord) : Bool :=
  containsSub (lowerStr r.game_nick) (lowerStr search_text)
    || containsSub (lowerStr r.telegram_name) (lowerStr search_text)

/-- `DatabaseManager.search_nick`: filtered rows with `limit(10)`
applied; a backend exception (`fault`) is caught and yields `[]`. -/
def search_nick (store : List UserRecord) (search_text : String) (fault : Bool) :
    List SearchRow :=
  if fault then []
  else
    ((store.filter (matchesSearch search_text)).take 10).map (fun r =>
      { telegram_name := r.telegram_name, game_nick := r.game_nick })

/-- The forbidden characters of `nick_command`, in the order the source
lists them: less-than (60), greater-than (62), ampersand (38), double
quote (34), single quote (39), backtick (96), backslash (92). -/
def forbidden_chars : List Char :=
  [Char.ofNat 60, Char.ofNat 62, Char.ofNat 38, Char.ofNat 34,
   Char.ofNat 39, Char.ofNat 96, Char.ofNat 92]

/-- The candidate nickname of `/nick`:
`' '.join(context.args).strip()`. -/
def candidateNick (args : List String) : String :=
  pyStrip (String.intercalate " " args)

/-- The first forbidden character occurring in `s` by position in `s`
itself (as opposed to position in the fixed check order). -/
def earliestForbidden (s : String) : Option Char :=
  s.toList.find? (fun c => forbidden_chars.contains c)

/-- The replies `nick_command` can produce, one constructor per
`reply_text` call site of the source. -/
inductive NickReply where
  | tooShort
  | tooLong
  | forbiddenChar (c : Char)
  | showCurrent (nick : String)
  | promptSet
  | saved (first_name game_nick : String) (total : Nat)
  | saveFailed
  deriving DecidableEq, Repr

/-- The literal reply texts of `nick_command` (Markdown source, before
the platform renders it). -/
def renderNickReply : NickReply → String
  | NickReply.tooShort => "❌ Слишком короткий ник. Минимум 2 символа."
  | NickReply.tooLong => "❌ Слишком длинный ник. Максимум 32 символа."
  | NickReply.forbiddenChar c =>
      "❌ Ник содержит запрещенный символ: " ++ String.singleton c
  | NickReply.showCurrent nick =>
      "🎮 **Твой текущий ник:** " ++ nick ++
      "\n\nЧтобы изменить, напиши:\n`/nick НовыйИгровойНик`"
  | NickReply.promptSet =>
      "📝 **Установи игровой ник:**\n\nНапиши: `/nick ТвойНик`\n\n" ++
      "Примеры:\n• `/nick ProPlayer`\n• `/nick КрутойГеймер`\n" ++
      "• `/nick Охотник23`\n\n⚠️ **Требования:**\n" ++
      "• От 2 до 32 символов\n• Без запрещенных символов"
  | NickReply.saved first_name game_nick total =>
      "✅ **Отлично, " ++ first_name ++ "!**\n\n🎮 Твой игровой ник: **" ++
      game_nick ++ "**\n\n📊 Всего игроков в базе: **" ++ toString total ++
      "**\n\n**Что дальше:**\n1. Добавь меня в группу как администратора\n" ++
      "2. Дай права на удаление сообщений\n" ++
      "3. Пиши в группе - я подпишу твои сообщения!\n\n" ++
      "🔄 Изменить ник: `/nick НовыйНик`"
  | NickReply.saveFailed =>
      "❌ Не удалось сохранить ник. Попробуй позже или обратись к администратору."

/-- Observable outcome of one `nick_command` invocation: the reply sent,
the store state afterwards, and whether `save_user_nick` was reached. -/
structure NickOutcome where
  reply : NickReply
  store : List UserRecord
  saveCalled : Bool
  deriving DecidableEq, Repr

/-- `nick_command`.  `args` is `context.args`; the candidate nickname is
the arguments joined with single spaces and stripped, exactly as
`' '.join(context.args).strip()`.  Validation order follows the source:
too-short, too-long, then the forbidden characters in list order with an
early return at the first hit; only then is `save_user_nick` called,
followed by `get_stats` on success. -/
def nick_command (store : List UserRecord) (telegram_id : Int)
    (username : Option String) (first_name : String) (args : List String)
    (t_upd t_created : Nat)
    (getFault selectFault updateFault insertFault countFault recentFault : Bool) :
    NickOutcome :=
  if args.isEmpty then
    match get_user_nick store telegram_id getFault with
    | some nick =>
        { reply := NickReply.showCurrent nick, store := store, saveCalled := false }
    | none => { reply := NickReply.promptSet, store := store, saveCalled := false }
  else
    let game_nick := candidateNick args
    if game_nick.length < 2 then
      { reply := NickReply.tooShort, store := store, saveCalled := false }
    else if 32 < game_nick.length then
      { reply := NickReply.tooLong, store := store, saveCalled := false }
    else
      match forbidden_chars.find? (fun c => strContains game_nick c) with
      | some c =>
          { reply := NickReply.forbiddenChar c, store := store, saveCalled := false }
      | none =>
        let res := save_user_nick store telegram_id username first_name game_nick
                     t_upd t_created selectFault updateFault insertFault
        if res.2 then
          let stats := get_stats res.1 countFault recentFault
          { reply := NickReply.saved first_name game_nick stats.total,
            store := res.1, saveCalled := true }
        else
          { reply := NickReply.saveFailed, store := res.1, saveCalled := true }

/-- The replies `find_command` can produce.  `found` keeps the reply
structured: the numbered entries rendered (from `enumerate(results[:10], 1)`)
and the omitted-results note (`some k` iff the handler appended
"... и еще k результатов"). -/
inductive FindReply where
  | usage
  | found (search_text : String) (entries : List (Nat × SearchRow))
      (omitted : Option Nat)
  | notFound (search_text : String)
  deriving DecidableEq, Repr

/-- `find_command`.  With arguments, the search string is
`' '.join(context.args)` (no strip), passed to `search_nick`; the reply
numbers `results[:10]` from 1 and appends an omitted count only when
`len(results) > 10`. -/
def find_command (store : List UserRecord) (args : List String) (fault : Bool) :
    FindReply :=
  if args.isEmpty then FindReply.usage
  else
    let search_text := String.intercalate " " args
    let results := search_nick store search_text fault
    if 0 < results.length then
      FindReply.found search_text (List.enumFrom 1 (results.take 10))
        (if 10 < results.length then some (results.length - 10) else none)
    else FindReply.notFound search_text

/-- Platform actions `handle_group_message` attempts, in order.  A
`tryDeleteOriginal` / `tryDeleteRelay` / `tryDeleteReminder` entry is an
attempted delete call; whether it succeeded is a separate oracle. -/
inductive BotAction where
  | sendRelay (chat_id : Int) (text : String)
  | tryDeleteOriginal (message_id : Int)
  | logWarning
  | tryDeleteRelay
  | sendReminder (text : String) (reply_to : Int)
  | sleepSecs (seconds : Nat)
  | tryDeleteReminder
  | logErrorReminder
  deriving DecidableEq, Repr

/-- Recognises the relay post among the trace actions. -/
def BotAction.isSend : BotAction → Bool
  | BotAction.sendRelay _ _ => true
  | _ => false

/-- Recognises the compensating deletion of the relay post. -/
def BotAction.isRelayDelete : BotAction → Bool
  | BotAction.tryDeleteRelay => true
  | _ => false

/-- Text of the relay message:
`f"**🎮 {game_nick}:** {message_text}"` (Markdown source). -/
def relayText (game_nick message_text : String) : String :=
  "**🎮 " ++ game_nick ++ ":** " ++ message_text

/-- Text of the no-nickname reminder reply. -/
def reminderText (first_name : String) : String :=
  "👤 " ++ first_name ++ ", для отправки сообщений нужен игровой ник!\n\n" ++
  "Напиши мне в личные сообщения:\n`/nick ТвойИгровойНик`"

/-- `handle_group_message`.  Inputs: the store, the chat type string, the
optional message text, the sender id and first name, the chat and message
ids.  Oracles: `getFault` (the nickname lookup's backend raising),
`sendOk` (the relay `send_message`, which is NOT wrapped in try/except),
`delOrigOk` (deleting the original), `delRelayOk` (deleting the relay
post — its failure is swallowed by a bare except, so the trace does not
depend on it), `replyOk` (posting the reminder), `delReminderOk`
(deleting the reminder).  Returns the ordered trace of attempted actions
and whether an exception escaped the handler. -/
def handle_group_message (store : List UserRecord) (chatType : String)
    (text : Option String) (user_id : Int) (first_name : String)
    (chat_id message_id : Int)
    (getFault sendOk delOrigOk delRelayOk replyOk delReminderOk : Bool) :
    List BotAction × Bool :=
  if ¬ (chatType = "group" ∨ chatType = "supergroup") then ([], false)
  else if strStartsWith (text.getD "") "/" then ([], false)
  else
    let message_text := text.getD ""
    match get_user_nick store user_id getFault with
    | some game_nick =>
      if ¬ sendOk then
        ([BotAction.sendRelay chat_id (relayText game_nick message_text)], true)
      else if delOrigOk then
        ([BotAction.sendRelay chat_id (relayText game_nick message_text),
          BotAction.tryDeleteOriginal message_id], false)
      else
        ([BotAction.sendRelay chat_id (relayText game_nick message_text),
          BotAction.tryDeleteOriginal message_id,
          BotAction.logWarning, BotAction.tryDeleteRelay], false)
    | none =>
      if ¬ replyOk then
        ([BotAction.sendReminder (reminderText first_name) message_id,
          BotAction.logErrorReminder], false)
      else if delReminderOk then
        ([BotAction.sendReminder (reminderText first_name) message_id,
          BotAction.sleepSecs 15, BotAction.tryDeleteReminder], false)
      else
        ([BotAction.sendReminder (reminderText first_name) message_id,
          BotAction.sleepSecs 15, BotAction.tryDeleteReminder,
          BotAction.logErrorReminder], false)

/-! ## Concrete fixtures used by witnesses and counterexamples -/

/-- A stored row for identity 7. -/
def sampleOld : UserRecord :=
  { telegram_id := 7, telegram_username := none, telegram_name := "A",
    game_nick := "OldNick", created_at := 1, updated_at := 1 }

/-- A stored row for the unrelated identity 8. -/
def sampleOther : UserRecord :=
  { telegram_id := 8, telegram_username := none, telegram_name := "B",
    game_nick := "Other", created_at := 2, updated_at := 2 }

/-- A stored row for identity 1 with nickname "Hero". -/
def heroRec : UserRecord :=
  { telegram_id := 1, telegram_username := none, telegram_name := "N",
    game_nick := "Hero", created_at := 0, updated_at := 0 }

/-- The search projection shared by every row of `store11`. -/
def proRow : SearchRow :=
  { telegram_name := "name", game_nick := "proplayer" }

/-- Eleven rows, all matching the search string "pro". -/
def store11 : List UserRecord :=
  (List.range 11).map (fun i =>
    { telegram_id := (i : Int), telegram_username := none,
      telegram_name := "name", game_nick := "proplayer",
      created_at := 0, updated_at := 0 })

/-! ## Claims -/

/-- C1 (amended): for a new identity (no existing row for that
`telegram_id`) and no backend fault, `save_user_nick` succeeds and
appends exactly one new row; that row's `updated_at` is the first
`datetime.now()` reading of the call and its `created_at` is the second,
later reading — the source takes two separate readings, so the two
fields coincide only when the clock does not advance between them. -/
theorem c1_save_new_inserts_one (store : List UserRecord) (telegram_id : Int)
    (username : Option String) (name game_nick : String) (t_upd t_created : Nat)
    (h : (store.filter (fun r => r.telegram_id == telegram_id)).length = 0) :
    save_user_nick store telegram_id username name game_nick t_upd t_created
        false false false
      = (store ++ [{ telegram_id := telegram_id, telegram_username := username,
                     telegram_name := name, game_nick := game_nick,
                     created_at := t_created, updated_at := t_upd }], true) := by
  unfold save_user_nick
  simp [h]

/-- Witness for `c1_save_new_inserts_one`: empty store, identity 7, both
clock readings equal to 3. -/
theorem c1_save_new_inserts_one_witness :
    (([] : List UserRecord).filter (fun r => r.telegram_id == (7 : Int))).length
      = 0 ∧
    save_user_nick [] 7 (some "u") "Name" "Hero" 3 3 false false false
      = ([{ telegram_id := 7, telegram_username := some "u",
            telegram_name := "Name", game_nick := "Hero",
            created_at := 3, updated_at := 3 }], true) :=
  ⟨by decide, c1_save_new_inserts_one [] 7 (some "u") "Name" "Hero" 3 3 (by decide)⟩

/-- C1 counterexample: with the clock advancing between the two
`datetime.now()` readings (`updated_at` read 0, then `created_at` read 1),
a successful save for a fresh identity inserts its single record with
`created_at ≠ updated_at`, refuting `created_at` = `updated_at`. -/
theorem c1_counterexample :
    (save_user_nick [] 7 none "Name" "GoodNick" 0 1 false false false).2
      = true ∧
    (save_user_nick [] 7 none "Name" "GoodNick" 0 1 false false false).1.length
      = 1 ∧
    ((save_user_nick [] 7 none "Name" "GoodNick" 0 1 false false false).1.all
      (fun r => r.created_at != r.updated_at)) = true := by
  decide

/-- C6: for an identity that already has a record and no backend fault,
`save_user_nick` succeeds and maps the store in place: rows with that
identity get the new `game_nick`, `telegram_username`, `telegram_name`
and `updated_at` while keeping their `created_at`; rows with other
identities are untouched; the row count is unchanged, so no second
record is created. -/
theorem c6_save_existing_updates_in_place (store : List UserRecord)
    (telegram_id : Int) (username : Option String) (name game_nick : String)
    (t_upd t_created : Nat) (r : UserRecord)
    (h : 0 < (store.filter (fun x => x.telegram_id == telegram_id)).length) :
    save_user_nick store telegram_id username name game_nick t_upd t_created
        false false false
      = (store.map (fun x => if x.telegram_id == telegram_id then
          updateFields telegram_id username name game_nick t_upd x else x),
         true) ∧
    (store.map (fun x => if x.telegram_id == telegram_id then
        updateFields telegram_id username name game_nick t_upd x else x)).length
      = store.length ∧
    (updateFields telegram_id username name game_nick t_upd r).created_at
      = r.created_at ∧
    (updateFields telegram_id username name game_nick t_upd r).game_nick
      = game_nick ∧
    (updateFields telegram_id username name game_nick t_upd r).telegram_username
      = username ∧
    (updateFields telegram_id username name game_nick t_upd r).telegram_name
      = name ∧
    (updateFields telegram_id username name game_nick t_upd r).updated_at
      = t_upd ∧
    ((r.telegram_id == telegram_id) = false →
      (if r.telegram_id == telegram_id then
        updateFields telegram_id username name game_nick t_upd r else r) = r) := by
  refine ⟨?_, by simp, rfl, rfl, rfl, rfl, rfl, ?_⟩
  · unfold save_user_nick
    simp [h]
  · intro hr
    simp [hr]

/-- Witness for `c6_save_existing_updates_in_place`: a two-row store with
identities 7 and 8, updating identity 7's row. -/
theorem c6_save_existing_updates_in_place_witness :
    0 < (([sampleOld, sampleOther]).filter
          (fun x => x.telegram_id == (7 : Int))).length ∧
    save_user_nick [sampleOld, sampleOther] 7 (some "x") "NewName" "NewNick"
        5 6 false false false
      = ([sampleOld, sampleOther].map (fun x => if x.telegram_id == (7 : Int) then
          updateFields 7 (some "x") "NewName" "NewNick" 5 x else x), true) ∧
    (updateFields 7 (some "x") "NewName" "NewNick" 5 sampleOther).created_at
      = sampleOther.created_at ∧
    ((if sampleOther.telegram_id == (7 : Int) then
        updateFields 7 (some "x") "NewName" "NewNick" 5 sampleOther
      else sampleOther) = sampleOther) := by
  have h := c6_save_existing_updates_in_place [sampleOld, sampleOther] 7
    (some "x") "NewName" "NewNick" 5 6 sampleOther (by decide)
  exact ⟨by decide, h.1, h.2.2.1, h.2.2.2.2.2.2.2 (by decide)⟩

/-- C4: with a candidate nickname (arguments joined and stripped) of
length below 2 or above 32, or containing a forbidden character, the
`/nick` handler replies with the corresponding length-specific or
character-identifying message (literal texts given via `renderNickReply`)
and performs no store write: the store is returned unchanged and
`save_user_nick` is not reached. -/
theorem c4_nick_rejects_invalid (store : List UserRecord) (telegram_id : Int)
    (username : Option String) (first_name : String) (args : List String)
    (t_upd t_created : Nat) (gF sF uF iF cF rF : Bool)
    (hargs : args.isEmpty = false) :
    ((candidateNick args).length < 2 →
      nick_command store telegram_id username first_name args t_upd t_created
          gF sF uF iF cF rF
        = { reply := NickReply.tooShort, store := store, saveCalled := false }) ∧
    (32 < (candidateNick args).length →
      nick_command store telegram_id username first_name args t_upd t_created
          gF sF uF iF cF rF
        = { reply := NickReply.tooLong, store := store, saveCalled := false }) ∧
    (∀ c, ¬ (candidateNick args).length < 2 →
      ¬ 32 < (candidateNick args).length →
      forbidden_chars.find? (fun ch => strContains (candidateNick args) ch)
        = some c →
      nick_command store telegram_id username first_name args t_upd t_created
          gF sF uF iF cF rF
        = { reply := NickReply.forbiddenChar c, store := store,
            saveCalled := false }
        ∧ strContains (candidateNick args) c = true) ∧
    renderNickReply NickReply.tooShort
      = "❌ Слишком короткий ник. Минимум 2 символа." ∧
    renderNickReply NickReply.tooLong
      = "❌ Слишком длинный ник. Максимум 32 символа." ∧
    (∀ c, renderNickReply (NickReply.forbiddenChar c)
      = "❌ Ник содержит запрещенный символ: " ++ String.singleton c) := by
  refine ⟨?_, ?_, ?_, rfl, rfl, fun c => rfl⟩
  · intro h1
    unfold nick_command
    simp [hargs, h1]
  · intro h2
    have h1 : ¬ (candidateNick args).length < 2 := by omega
    unfold nick_command
    simp [hargs, h1, h2]
  · intro c h1 h2 hf
    constructor
    · unfold nick_command
      simp [hargs, h1, h2, hf]
    · simpa using List.find?_some hf

/-- Witness for `c4_nick_rejects_invalid`: a one-character candidate, a
33-character candidate, and a candidate containing the less-than
character each produce their rejection with the empty store unchanged. -/
theorem c4_nick_rejects_invalid_witness :
    ((["x"] : List String).isEmpty = false) ∧
    nick_command [] 7 none "F" ["x"] 0 0 false false false false false false
      = { reply := NickReply.tooShort, store := [], saveCalled := false } ∧
    nick_command [] 7 none "F" ["aaaaaaaaaaaaaaaaaaaaaaaaaaaaaaaaa"] 0 0
        false false false false false false
      = { reply := NickReply.tooLong, store := [], saveCalled := false } ∧
    (nick_command [] 7 none "F" ["ab<"] 0 0 false false false false false false
      = { reply := NickReply.forbiddenChar (Char.ofNat 60), store := [],
          saveCalled := false }
      ∧ strContains (candidateNick ["ab<"]) (Char.ofNat 60) = true) := by
  refine ⟨by decide, ?_, ?_, ?_⟩
  · exact (c4_nick_rejects_invalid [] 7 none "F" ["x"] 0 0
      false false false false false false (by decide)).1 (by decide)
  · exact (c4_nick_rejects_invalid [] 7 none "F"
      ["aaaaaaaaaaaaaaaaaaaaaaaaaaaaaaaaa"] 0 0
      false false false false false false (by decide)).2.1 (by decide)
  · exact (c4_nick_rejects_invalid [] 7 none "F" ["ab<"] 0 0
      false false false false false false (by decide)).2.2.1 (Char.ofNat 60)
      (by decide) (by decide) (by decide)

/-- C9: the length checks strictly precede the forbidden-character
check: a candidate that is too short or too long is rejected with the
corresponding length reply even when it contains a forbidden character,
and the length replies are distinct from every character reply; no store
write occurs. -/
theorem c9_length_checks_come_first (store : List UserRecord) (telegram_id : Int)
    (username : Option String) (first_name : String) (args : List String)
    (t_upd t_created : Nat) (gF sF uF iF cF rF : Bool) (c : Char)
    (hargs : args.isEmpty = false)
    (hc : c ∈ forbidden_chars)
    (hin : strContains (candidateNick args) c = true) :
    ((candidateNick args).length < 2 →
      nick_command store telegram_id username first_name args t_upd t_created
          gF sF uF iF cF rF
        = { reply := NickReply.tooShort, store := store, saveCalled := false }
      ∧ ∀ d, NickReply.tooShort ≠ NickReply.forbiddenChar d) ∧
    (32 < (candidateNick args).length →
      nick_command store telegram_id username first_name args t_upd t_created
          gF sF uF iF cF rF
        = { reply := NickReply.tooLong, store := store, saveCalled := false }
      ∧ ∀ d, NickReply.tooLong ≠ NickReply.forbiddenChar d) := by
  constructor
  · intro h1
    constructor
    · unfold nick_command
      simp [hargs, h1]
    · intro d h
      cases h
  · intro h2
    have h1 : ¬ (candidateNick args).length < 2 := by omega
    constructor
    · unfold nick_command
      simp [hargs, h1, h2]
    · intro d h
      cases h

/-- Witness for `c9_length_checks_come_first`: the candidate "<" (too
short and containing a forbidden character) gets the too-short reply, and
a 36-character candidate ending in "<" gets the too-long reply. -/
theorem c9_length_checks_come_first_witness :
    (nick_command [] 7 none "F" ["<"] 0 0 false false false false false false
      = { reply := NickReply.tooShort, store := [], saveCalled := false }) ∧
    (nick_command [] 7 none "F" ["aaaaaaaaaaaaaaaaaaaaaaaaaaaaaaaaaaa<"] 0 0
        false false false false false false
      = { reply := NickReply.tooLong, store := [], saveCalled := false }) := by
  constructor
  · exact ((c9_length_checks_come_first [] 7 none "F" ["<"] 0 0
      false false false false false false (Char.ofNat 60)
      (by decide) (by decide) (by decide)).1 (by decide)).1
  · exact ((c9_length_checks_come_first [] 7 none "F"
      ["aaaaaaaaaaaaaaaaaaaaaaaaaaaaaaaaaaa<"] 0 0
      false false false false false false (Char.ofNat 60)
      (by decide) (by decide) (by decide)).2 (by decide)).1

/-- C10: when the candidate passes both length checks and contains at
least two distinct forbidden characters, the loop over `forbidden_chars`
replies with the first character in the fixed check order that occurs in
the candidate (`forbidden_chars.find?`) — which need not be the forbidden
character occurring earliest in the candidate itself (see the witness) —
and performs no store write. -/
theorem c10_reports_first_in_check_order (store : List UserRecord)
    (telegram_id : Int) (username : Option String) (first_name : String)
    (args : List String) (t_upd t_created : Nat) (gF sF uF iF cF rF : Bool)
    (c : Char)
    (hargs : args.isEmpty = false)
    (hmany : 2 ≤ (forbidden_chars.filter
      (fun ch => strContains (candidateNick args) ch)).length)
    (h1 : ¬ (candidateNick args).length < 2)
    (h2 : ¬ 32 < (candidateNick args).length)
    (hf : forbidden_chars.find? (fun ch => strContains (candidateNick args) ch)
      = some c) :
    nick_command store telegram_id username first_name args t_upd t_created
        gF sF uF iF cF rF
      = { reply := NickReply.forbiddenChar c, store := store,
          saveCalled := false } := by
  unfold nick_command
  simp [hargs, h1, h2, hf]

/-- Witness for `c10_reports_first_in_check_order`: in the candidate
"ab\<" the backslash (92) occurs before the less-than sign (60), yet the
reply names the less-than sign, because less-than comes first in the
fixed check order. -/
theorem c10_reports_first_in_check_order_witness :
    (nick_command [] 7 none "F" ["ab\\<"] 0 0 false false false false false false
      = { reply := NickReply.forbiddenChar (Char.ofNat 60), store := [],
          saveCalled := false }) ∧
    earliestForbidden (candidateNick ["ab\\<"]) = some (Char.ofNat 92) ∧
    Char.ofNat 92 ≠ Char.ofNat 60 := by
  refine ⟨?_, by decide, by decide⟩
  exact c10_reports_first_in_check_order [] 7 none "F" ["ab\\<"] 0 0
    false false false false false false (Char.ofNat 60)
    (by decide) (by decide) (by decide) (by decide) (by decide)

/-- C5: every store operation absorbs backend exceptions into its
neutral result — each operation in the embedding is a total function, so
nothing propagates to the caller; with a fault on the executed backend
call, `get_user_nick` returns `none`, `save_user_nick` returns `false`
with the store unchanged (whichever of its three backend calls fails),
`get_stats` returns total 0 with an empty recent list (whichever of its
two queries fails), and `search_nick` returns `[]`. -/
theorem c5_operations_absorb_backend_errors (store : List UserRecord)
    (telegram_id : Int) (username : Option String) (name game_nick : String)
    (t_upd t_created : Nat) (search_text : String) (b c : Bool) :
    get_user_nick store telegram_id true = none ∧
    save_user_nick store telegram_id username name game_nick t_upd t_created
        true b c = (store, false) ∧
    (0 < (store.filter (fun r => r.telegram_id == telegram_id)).length →
      save_user_nick store telegram_id username name game_nick t_upd t_created
        false true c = (store, false)) ∧
    ((store.filter (fun r => r.telegram_id == telegram_id)).length = 0 →
      save_user_nick store telegram_id username name game_nick t_upd t_created
        false b true = (store, false)) ∧
    get_stats store true b = { total := 0, recent := [] } ∧
    get_stats store b true = { total := 0, recent := [] } ∧
    search_nick store search_text true = [] := by
  refine ⟨rfl, rfl, ?_, ?_, ?_, ?_, rfl⟩
  · intro h
    unfold save_user_nick
    simp [h]
  · intro h
    unfold save_user_nick
    simp [h]
  · unfold get_stats
    simp
  · unfold get_stats
    simp

/-- Witness for `c5_operations_absorb_backend_errors` on a one-row store
(faulting the select and the update) and on the empty store (faulting
the insert). -/
theorem c5_operations_absorb_backend_errors_witness :
    get_user_nick [sampleOld] 7 true = none ∧
    save_user_nick [sampleOld] 7 none "N" "GoodNick" 0 0 true false false
      = ([sampleOld], false) ∧
    save_user_nick [sampleOld] 7 none "N" "GoodNick" 0 0 false true false
      = ([sampleOld], false) ∧
    save_user_nick [] 7 none "N" "GoodNick" 0 0 false false true
      = ([], false) ∧
    get_stats [sampleOld] true false = { total := 0, recent := [] } ∧
    get_stats [sampleOld] false true = { total := 0, recent := [] } ∧
    search_nick [sampleOld] "pro" true = [] := by
  have h1 := c5_operations_absorb_backend_errors [sampleOld] 7 none "N"
    "GoodNick" 0 0 "pro" false false
  have h2 := c5_operations_absorb_backend_errors ([] : List UserRecord) 7 none
    "N" "GoodNick" 0 0 "pro" false false
  exact ⟨h1.1, h1.2.1, h1.2.2.1 (by decide), h2.2.2.2.1 (by decide),
    h1.2.2.2.2.1, h1.2.2.2.2.2.1, h1.2.2.2.2.2.2⟩

/-- C2 (amended): for a group-chat non-command text message whose sender
has a nickname, with the relay post succeeding, `handle_group_message`
posts exactly one message — to the same chat, with Markdown text
`"**🎮 " ++ nick ++ ":** " ++ text` (a game emoji and the nickname in a
bold span, then the original text) — and then attempts to delete the
original message; no exception escapes. -/
theorem c2_relay_posts_once (store : List UserRecord)
    (chatType t nick first_name : String) (user_id chat_id message_id : Int)
    (getFault delOrigOk delRelayOk replyOk delReminderOk : Bool)
    (hct : chatType = "group" ∨ chatType = "supergroup")
    (hcmd : strStartsWith t "/" = false)
    (hn : get_user_nick store user_id getFault = some nick) :
    ((handle_group_message store chatType (some t) user_id first_name chat_id
        message_id getFault true delOrigOk delRelayOk replyOk
        delReminderOk).1.filter BotAction.isSend).length = 1 ∧
    (handle_group_message store chatType (some t) user_id first_name chat_id
        message_id getFault true delOrigOk delRelayOk replyOk
        delReminderOk).1.take 2
      = [BotAction.sendRelay chat_id (relayText nick t),
         BotAction.tryDeleteOriginal message_id] ∧
    (handle_group_message store chatType (some t) user_id first_name chat_id
        message_id getFault true delOrigOk delRelayOk replyOk
        delReminderOk).2 = false := by
  rcases hct with h | h <;> subst h <;>
    unfold handle_group_message <;>
    simp only [Option.getD_some, hcmd, hn] <;>
    cases delOrigOk <;>
    simp [BotAction.isSend]

/-- Witness for `c2_relay_posts_once`: the one-row store with nickname
"Hero", a group message "hi" in chat 5 with message id 6. -/
theorem c2_relay_posts_once_witness :
    (strStartsWith "hi" "/" = false) ∧
    get_user_nick [heroRec] 1 false = some "Hero" ∧
    (((handle_group_message [heroRec] "group" (some "hi") 1 "F" 5 6 false true
        true true true true).1.filter BotAction.isSend).length = 1 ∧
     (handle_group_message [heroRec] "group" (some "hi") 1 "F" 5 6 false true
        true true true true).1.take 2
       = [BotAction.sendRelay 5 (relayText "Hero" "hi"),
          BotAction.tryDeleteOriginal 6] ∧
     (handle_group_message [heroRec] "group" (some "hi") 1 "F" 5 6 false true
        true true true true).2 = false) :=
  ⟨by decide, by decide,
   c2_relay_posts_once [heroRec] "group" "hi" "Hero" "F" 1 5 6 false true true
     true true (Or.inl rfl) (by decide) (by decide)⟩

/-- C2 counterexample: for the sender with nickname "Hero" and original
text "t", the single posted message has text "**🎮 Hero:** t" (game
emoji and Markdown bold markers included), not "Hero: t" as the claim
states. -/
theorem c2_counterexample :
    (handle_group_message [heroRec] "group" (some "t") 1 "F" 5 6 false true
        true true true true).1
      = [BotAction.sendRelay 5 "**🎮 Hero:** t",
         BotAction.tryDeleteOriginal 6] ∧
    "**🎮 Hero:** t" ≠ "Hero: t" := by
  constructor
  · decide
  · decide

/-- C7: when deleting the original message fails after the relay was
posted, the handler's trace is exactly relay post, failed original
delete, warning log, then one compensating deletion attempt of the relay
post as the final action; the trace is the same literal whatever the
outcome `delRelayOk` of that secondary deletion — its failure is
swallowed by the bare except — and no exception escapes. -/
theorem c7_failed_delete_compensates (store : List UserRecord)
    (chatType t nick first_name : String) (user_id chat_id message_id : Int)
    (getFault delRelayOk replyOk delReminderOk : Bool)
    (hct : chatType = "group" ∨ chatType = "supergroup")
    (hcmd : strStartsWith t "/" = false)
    (hn : get_user_nick store user_id getFault = some nick) :
    handle_group_message store chatType (some t) user_id first_name chat_id
        message_id getFault true false delRelayOk replyOk delReminderOk
      = ([BotAction.sendRelay chat_id (relayText nick t),
          BotAction.tryDeleteOriginal message_id,
          BotAction.logWarning, BotAction.tryDeleteRelay], false) ∧
    ((handle_group_message store chatType (some t) user_id first_name chat_id
        message_id getFault true false delRelayOk replyOk
        delReminderOk).1.filter BotAction.isRelayDelete).length = 1 := by
  have heq : handle_group_message store chatType (some t) user_id first_name
      chat_id message_id getFault true false delRelayOk replyOk delReminderOk
      = ([BotAction.sendRelay chat_id (relayText nick t),
          BotAction.tryDeleteOriginal message_id,
          BotAction.logWarning, BotAction.tryDeleteRelay], false) := by
    rcases hct with h | h <;> subst h <;>
      unfold handle_group_message <;>
      simp [Option.getD_some, hcmd, hn]
  refine ⟨heq, ?_⟩
  rw [heq]
  simp [BotAction.isRelayDelete]

/-- Witness for `c7_failed_delete_compensates`: nickname "Hero", group
message "hi", original deletion failing while the secondary deletion
also fails. -/
theorem c7_failed_delete_compensates_witness :
    (strStartsWith "hi" "/" = false) ∧
    get_user_nick [heroRec] 1 false = some "Hero" ∧
    (handle_group_message [heroRec] "supergroup" (some "hi") 1 "F" 5 6 false
        true false false true true
      = ([BotAction.sendRelay 5 (relayText "Hero" "hi"),
          BotAction.tryDeleteOriginal 6,
          BotAction.logWarning, BotAction.tryDeleteRelay], false) ∧
     ((handle_group_message [heroRec] "supergroup" (some "hi") 1 "F" 5 6 false
        true false false true true).1.filter BotAction.isRelayDelete).length
       = 1) :=
  ⟨by decide, by decide,
   c7_failed_delete_compensates [heroRec] "supergroup" "hi" "Hero" "F" 1 5 6
     false false true true (Or.inr rfl) (by decide) (by decide)⟩

/-- C8: for a group-chat non-command text message whose sender has no
nickname, the handler posts no relay message; it posts the reminder as a
reply threaded to the original message id and, when posting succeeded,
suspends for the fixed 15 seconds and then attempts to delete the
reminder; a failure of the reminder post or of the delayed delete only
appends an error-log action; no exception escapes in any case. -/
theorem c8_reminder_flow (store : List UserRecord)
    (chatType t first_name : String) (user_id chat_id message_id : Int)
    (getFault sendOk delOrigOk delRelayOk replyOk delReminderOk : Bool)
    (hct : chatType = "group" ∨ chatType = "supergroup")
    (hcmd : strStartsWith t "/" = false)
    (hn : get_user_nick store user_id getFault = none) :
    ((handle_group_message store chatType (some t) user_id first_name chat_id
        message_id getFault sendOk delOrigOk delRelayOk replyOk
        delReminderOk).1.filter BotAction.isSend).length = 0 ∧
    (handle_group_message store chatType (some t) user_id first_name chat_id
        message_id getFault sendOk delOrigOk delRelayOk replyOk
        delReminderOk).2 = false ∧
    (replyOk = true → delReminderOk = true →
      (handle_group_message store chatType (some t) user_id first_name chat_id
          message_id getFault sendOk delOrigOk delRelayOk replyOk
          delReminderOk).1
        = [BotAction.sendReminder (reminderText first_name) message_id,
           BotAction.sleepSecs 15, BotAction.tryDeleteReminder]) ∧
    (replyOk = true → delReminderOk = false →
      (handle_group_message store chatType (some t) user_id first_name chat_id
          message_id getFault sendOk delOrigOk delRelayOk replyOk
          delReminderOk).1
        = [BotAction.sendReminder (reminderText first_name) message_id,
           BotAction.sleepSecs 15, BotAction.tryDeleteReminder,
           BotAction.logErrorReminder]) ∧
    (replyOk = false →
      (handle_group_message store chatType (some t) user_id first_name chat_id
          message_id getFault sendOk delOrigOk delRelayOk replyOk
          delReminderOk).1
        = [BotAction.sendReminder (reminderText first_name) message_id,
           BotAction.logErrorReminder]) := by
  rcases hct with h | h <;> subst h <;>
    unfold handle_group_message <;>
    cases replyOk <;> cases delReminderOk <;>
    simp [Option.getD_some, hcmd, hn, BotAction.isSend]

/-- Witness for `c8_reminder_flow`: the empty store (so identity 1 has
no nickname) with the reminder flow fully succeeding. -/
theorem c8_reminder_flow_witness :
    (strStartsWith "hi" "/" = false) ∧
    get_user_nick [] 1 false = none ∧
    (((handle_group_message [] "group" (some "hi") 1 "F" 5 6 false true true
        true true true).1.filter BotAction.isSend).length = 0 ∧
     (handle_group_message [] "group" (some "hi") 1 "F" 5 6 false true true
        true true true).2 = false ∧
     (handle_group_message [] "group" (some "hi") 1 "F" 5 6 false true true
        true true true).1
       = [BotAction.sendReminder (reminderText "F") 6,
          BotAction.sleepSecs 15, BotAction.tryDeleteReminder]) := by
  have h := c8_reminder_flow [] "group" "hi" "F" 1 5 6 false true true true
    true true (Or.inl rfl) (by decide) (by decide)
  exact ⟨by decide, by decide, h.1, h.2.1, h.2.2.1 rfl rfl⟩

/-- C3 (amended): a `/find` invocation with arguments renders at most 10
numbered results and the underlying `search_nick` returns at most 10
rows — but, because of that very cap, the handler condition
`len(results) > 10` guarding the omitted-results note can never hold, so
the note is `none` in every found reply, even when more than 10 stored
rows match the search. -/
theorem c3_find_caps_at_ten (store : List UserRecord) (args : List String)
    (fault : Bool) (q : String) (entries : List (Nat × SearchRow))
    (omitted : Option Nat)
    (hargs : args.isEmpty = false)
    (hfound : find_command store args fault = FindReply.found q entries omitted) :
    (search_nick store (String.intercalate " " args) fault).length ≤ 10 ∧
    entries.length ≤ 10 ∧ omitted = none := by
  have hsearch : (search_nick store (String.intercalate " " args) fault).length
      ≤ 10 := by
    unfold search_nick
    cases fault
    · simp only [Bool.false_eq_true, if_false, List.length_map, List.length_take]
      omega
    · simp
  refine ⟨hsearch, ?_⟩
  unfold find_command at hfound
  rw [hargs] at hfound
  simp only [Bool.false_eq_true, if_false] at hfound
  split at hfound
  · rw [FindReply.found.injEq] at hfound
    obtain ⟨hq, he, ho⟩ := hfound
    subst he
    subst ho
    constructor
    · simp only [List.enumFrom_length, List.length_take]
      omega
    · rw [if_neg]
      omega
  · exact FindReply.noConfusion hfound

/-- Witness for `c3_find_caps_at_ten`: searching "hero" over the one-row
store yields a found reply with one numbered entry and no omitted note. -/
theorem c3_find_caps_at_ten_witness :
    ((["hero"] : List String).isEmpty = false) ∧
    find_command [heroRec] ["hero"] false
      = FindReply.found "hero"
          [(1, { telegram_name := "N", game_nick := "Hero" })] none ∧
    ((search_nick [heroRec] (String.intercalate " " ["hero"]) false).length
        ≤ 10 ∧
     ([(1, ({ telegram_name := "N", game_nick := "Hero" } : SearchRow))]).length
        ≤ 10 ∧
     (none : Option Nat) = none) :=
  ⟨by decide, by decide,
   c3_find_caps_at_ten [heroRec] ["hero"] false "hero"
     [(1, { telegram_name := "N", game_nick := "Hero" })] none
     (by decide) (by decide)⟩

/-- C3 counterexample: eleven stored rows match "pro", yet the reply
renders ten numbered entries and carries no omitted-results note —
`search_nick` already capped the rows at ten, so the handler never sees
more than ten and never reports an omitted count. -/
theorem c3_counterexample :
    (store11.filter (matchesSearch "pro")).length = 11 ∧
    search_nick store11 "pro" false = List.replicate 10 proRow ∧
    find_command store11 ["pro"] false
      = FindReply.found "pro" (List.enumFrom 1 (List.replicate 10 proRow))
          none := by
  refine ⟨by decide, by decide, by decide⟩
